import Mathlib

/-!
Verification of the policy-conditions aggregation core of kubernetes-nmstate
(`pkg/controller/nodenetworkconfigurationpolicy/policyconditions/conditions.go`).

The Go source under scrutiny contains the four condition setters
(`setPolicyProgressing`, `setPolicySuccess`, `setPolicyNotMatching`,
`setPolicyFailedToConfigure`), the decision procedure inside `Update`
(lines 112-141), and the two entry points `Update` and `Reset` which wrap a
read-compute-write closure in `retry.RetryOnConflict(retry.DefaultRetry, ...)`.

External collaborators (the `ConditionList.Set` upsert from the apis package,
the client-go retry executor, and the enactment counter) are not part of the
source file; they are modelled from the specification, each with a doc comment
saying so.
-/

namespace policyconditions

/-- Condition status values, mirroring `corev1.ConditionTrue`,
`corev1.ConditionFalse` and `corev1.ConditionUnknown`. -/
inductive ConditionStatus where
  | conditionTrue
  | conditionFalse
  | conditionUnknown
deriving DecidableEq, Repr

/-- A status condition: identity key is `type`; carries a status, a machine
readable reason and a human readable message. -/
structure Condition where
  type : String
  status : ConditionStatus
  reason : String
  message : String
deriving DecidableEq, Repr

/-- The ordered, type-keyed collection of conditions owned by a policy status. -/
abbrev ConditionList := List Condition

/-- Condition type constant `NodeNetworkConfigurationPolicyConditionAvailable`. -/
def ConditionAvailable : String := "Available"

/-- Condition type constant `NodeNetworkConfigurationPolicyConditionDegraded`. -/
def ConditionDegraded : String := "Degraded"

/-- Reason constant `NodeNetworkConfigurationPolicyConditionConfigurationProgressing`. -/
def ReasonConfigurationProgressing : String := "ConfigurationProgressing"

/-- Reason constant `NodeNetworkConfigurationPolicyConditionSuccessfullyConfigured`. -/
def ReasonSuccessfullyConfigured : String := "SuccessfullyConfigured"

/-- Reason constant `NodeNetworkConfigurationPolicyConditionConfigurationNoMatchingNode`. -/
def ReasonConfigurationNoMatchingNode : String := "ConfigurationNoMatchingNode"

/-- Reason constant `NodeNetworkConfigurationPolicyConditionFailedToConfigure`. -/
def ReasonFailedToConfigure : String := "FailedToConfigure"

/-- Modelled from the spec: `ConditionList.Set(type, status, reason, message)`
(apis package, not under src/) upserts a condition: if a condition of that
type exists its fields are overwritten in place, position preserved;
otherwise the new condition is appended. -/
def ConditionList.Set : ConditionList → String → ConditionStatus → String → String → ConditionList
  | [], t, s, r, m => [⟨t, s, r, m⟩]
  | c :: rest, t, s, r, m =>
    if c.type = t then ⟨t, s, r, m⟩ :: rest
    else c :: ConditionList.Set rest t s r m

/-- Lookup of the condition of a given type (first occurrence). -/
def ConditionList.find (l : ConditionList) (t : String) : Option Condition :=
  List.find? (fun c => c.type = t) l

/-- Source `setPolicyProgressing`: Degraded = Unknown / ConfigurationProgressing
with empty message, Available = Unknown / ConfigurationProgressing with the
supplied message. -/
def setPolicyProgressing (conditions : ConditionList) (message : String) : ConditionList :=
  (conditions.Set ConditionDegraded ConditionStatus.conditionUnknown
      ReasonConfigurationProgressing "").Set
    ConditionAvailable ConditionStatus.conditionUnknown
      ReasonConfigurationProgressing message

/-- Source `setPolicySuccess`: Degraded = False / SuccessfullyConfigured with
empty message, Available = True / SuccessfullyConfigured with the supplied
message. -/
def setPolicySuccess (conditions : ConditionList) (message : String) : ConditionList :=
  (conditions.Set ConditionDegraded ConditionStatus.conditionFalse
      ReasonSuccessfullyConfigured "").Set
    ConditionAvailable ConditionStatus.conditionTrue
      ReasonSuccessfullyConfigured message

/-- Source `setPolicyNotMatching`: Degraded = False / ConfigurationNoMatchingNode
with the supplied message, Available = True / ConfigurationNoMatchingNode with
the same message. -/
def setPolicyNotMatching (conditions : ConditionList) (message : String) : ConditionList :=
  (conditions.Set ConditionDegraded ConditionStatus.conditionFalse
      ReasonConfigurationNoMatchingNode message).Set
    ConditionAvailable ConditionStatus.conditionTrue
      ReasonConfigurationNoMatchingNode message

/-- Source `setPolicyFailedToConfigure`: Degraded = True / FailedToConfigure
with the supplied message, Available = False / FailedToConfigure with empty
message. -/
def setPolicyFailedToConfigure (conditions : ConditionList) (message : String) : ConditionList :=
  (conditions.Set ConditionDegraded ConditionStatus.conditionTrue
      ReasonFailedToConfigure message).Set
    ConditionAvailable ConditionStatus.conditionFalse
      ReasonFailedToConfigure ""

/-- The four outcome counters produced by the enactment counter collaborator
(`enactmentconditions.Count`); the counter itself is an external boundary and
its result is consumed here as data. -/
structure EnactmentCounts where
  matching : Nat
  available : Nat
  failed : Nat
  notMatching : Nat
deriving DecidableEq, Repr

/-- Source `Update`, the `numberOfFinishedEnactments` computation (line 125):
available + failed + notMatching. -/
def numberOfFinishedEnactments (counts : EnactmentCounts) : Nat :=
  counts.available + counts.failed + counts.notMatching

/-- Source `Update`, lines 128-141: the decision procedure mapping the ready
node count and the enactment counts to the two condition upserts, applied to
the freshly read policy condition list. -/
def updateConditions (readyNodes : Nat) (counts : EnactmentCounts)
    (conditions : ConditionList) : ConditionList :=
  if numberOfFinishedEnactments counts < readyNodes then
    setPolicyProgressing conditions
      ("Policy is progressing " ++ toString (numberOfFinishedEnactments counts) ++ "/"
        ++ toString readyNodes ++ " nodes finished")
  else
    if counts.matching = 0 then
      setPolicyNotMatching conditions "Policy does not match any node"
    else if counts.failed > 0 then
      setPolicyFailedToConfigure conditions
        (toString counts.failed ++ "/" ++ toString counts.matching
          ++ " nodes failed to configure")
    else
      setPolicySuccess conditions
        (toString counts.available ++ "/" ++ toString counts.available
          ++ " nodes successfully configured")

/-- Upserting a condition of type `t` makes the lookup for `t` return exactly
the upserted condition. -/
theorem ConditionList.find_Set_self (l : ConditionList) (t : String)
    (s : ConditionStatus) (r m : String) :
    (l.Set t s r m).find t = some ⟨t, s, r, m⟩ := by
  induction l with
  | nil => simp [ConditionList.Set, ConditionList.find]
  | cons c rest ih =>
    by_cases h : c.type = t
    · simp [ConditionList.Set, h, ConditionList.find]
    · simpa [ConditionList.Set, h, ConditionList.find] using ih

/-- Upserting a condition of type `t` leaves the lookup of any other type
unchanged. -/
theorem ConditionList.find_Set_other (l : ConditionList) (t t' : String)
    (s : ConditionStatus) (r m : String) (h : t' ≠ t) :
    (l.Set t s r m).find t' = l.find t' := by
  induction l with
  | nil => simp [ConditionList.Set, ConditionList.find, Ne.symm h]
  | cons c rest ih =>
    by_cases hc : c.type = t
    · have hct' : ¬ c.type = t' := by rw [hc]; exact Ne.symm h
      simp [ConditionList.Set, hc, ConditionList.find, Ne.symm h, hct']
    · by_cases hc' : c.type = t'
      · simp [ConditionList.Set, hc, ConditionList.find, hc', h]
      · simpa [ConditionList.Set, hc, ConditionList.find, hc'] using ih

/-- Upserting a condition of type `t` does not change the sublist of
conditions rejected by any predicate that rejects all type-`t` conditions. -/
theorem ConditionList.filter_Set (l : ConditionList) (t : String)
    (s : ConditionStatus) (r m : String) (p : Condition → Bool)
    (hp : ∀ c : Condition, c.type = t → p c = false) :
    (l.Set t s r m).filter p = l.filter p := by
  induction l with
  | nil => simp [ConditionList.Set, hp ⟨t, s, r, m⟩ rfl]
  | cons c rest ih =>
    by_cases hc : c.type = t
    · simp [ConditionList.Set, hc, hp ⟨t, s, r, m⟩ rfl, hp c hc]
    · by_cases hpc : p c
      · simp [ConditionList.Set, hc, hpc, ih]
      · simp only [Bool.not_eq_true] at hpc
        simp [ConditionList.Set, hc, hpc, ih]

/-- The two condition type constants are distinct strings. -/
theorem degraded_ne_available : ConditionDegraded ≠ ConditionAvailable := by
  decide

/-- Degraded condition written by `setPolicyProgressing`. -/
theorem setPolicyProgressing_find_degraded (l : ConditionList) (m : String) :
    (setPolicyProgressing l m).find ConditionDegraded =
      some ⟨ConditionDegraded, ConditionStatus.conditionUnknown,
        ReasonConfigurationProgressing, ""⟩ := by
  unfold setPolicyProgressing
  rw [ConditionList.find_Set_other _ _ _ _ _ _ degraded_ne_available,
    ConditionList.find_Set_self]

/-- Available condition written by `setPolicyProgressing`. -/
theorem setPolicyProgressing_find_available (l : ConditionList) (m : String) :
    (setPolicyProgressing l m).find ConditionAvailable =
      some ⟨ConditionAvailable, ConditionStatus.conditionUnknown,
        ReasonConfigurationProgressing, m⟩ := by
  unfold setPolicyProgressing
  rw [ConditionList.find_Set_self]

/-- Degraded condition written by `setPolicySuccess`. -/
theorem setPolicySuccess_find_degraded (l : ConditionList) (m : String) :
    (setPolicySuccess l m).find ConditionDegraded =
      some ⟨ConditionDegraded, ConditionStatus.conditionFalse,
        ReasonSuccessfullyConfigured, ""⟩ := by
  unfold setPolicySuccess
  rw [ConditionList.find_Set_other _ _ _ _ _ _ degraded_ne_available,
    ConditionList.find_Set_self]

/-- Available condition written by `setPolicySuccess`. -/
theorem setPolicySuccess_find_available (l : ConditionList) (m : String) :
    (setPolicySuccess l m).find ConditionAvailable =
      some ⟨ConditionAvailable, ConditionStatus.conditionTrue,
        ReasonSuccessfullyConfigured, m⟩ := by
  unfold setPolicySuccess
  rw [ConditionList.find_Set_self]

/-- Degraded condition written by `setPolicyNotMatching`. -/
theorem setPolicyNotMatching_find_degraded (l : ConditionList) (m : String) :
    (setPolicyNotMatching l m).find ConditionDegraded =
      some ⟨ConditionDegraded, ConditionStatus.conditionFalse,
        ReasonConfigurationNoMatchingNode, m⟩ := by
  unfold setPolicyNotMatching
  rw [ConditionList.find_Set_other _ _ _ _ _ _ degraded_ne_available,
    ConditionList.find_Set_self]

/-- Available condition written by `setPolicyNotMatching`. -/
theorem setPolicyNotMatching_find_available (l : ConditionList) (m : String) :
    (setPolicyNotMatching l m).find ConditionAvailable =
      some ⟨ConditionAvailable, ConditionStatus.conditionTrue,
        ReasonConfigurationNoMatchingNode, m⟩ := by
  unfold setPolicyNotMatching
  rw [ConditionList.find_Set_self]

/-- Degraded condition written by `setPolicyFailedToConfigure`. -/
theorem setPolicyFailedToConfigure_find_degraded (l : ConditionList) (m : String) :
    (setPolicyFailedToConfigure l m).find ConditionDegraded =
      some ⟨ConditionDegraded, ConditionStatus.conditionTrue,
        ReasonFailedToConfigure, m⟩ := by
  unfold setPolicyFailedToConfigure
  rw [ConditionList.find_Set_other _ _ _ _ _ _ degraded_ne_available,
    ConditionList.find_Set_self]

/-- Available condition written by `setPolicyFailedToConfigure`. -/
theorem setPolicyFailedToConfigure_find_available (l : ConditionList) (m : String) :
    (setPolicyFailedToConfigure l m).find ConditionAvailable =
      some ⟨ConditionAvailable, ConditionStatus.conditionFalse,
        ReasonFailedToConfigure, ""⟩ := by
  unfold setPolicyFailedToConfigure
  rw [ConditionList.find_Set_self]

/-- C1: when fewer enactments are finished than there are ready nodes, the
aggregator sets Degraded to Unknown with reason ConfigurationProgressing and
empty message, and Available to Unknown with reason ConfigurationProgressing
and message "Policy is progressing <finished>/<readyNodes> nodes finished". -/
theorem update_progressing_conditions (readyNodes : Nat) (counts : EnactmentCounts)
    (conditions : ConditionList)
    (h : numberOfFinishedEnactments counts < readyNodes) :
    (updateConditions readyNodes counts conditions).find ConditionDegraded =
      some ⟨ConditionDegraded, ConditionStatus.conditionUnknown,
        ReasonConfigurationProgressing, ""⟩ ∧
    (updateConditions readyNodes counts conditions).find ConditionAvailable =
      some ⟨ConditionAvailable, ConditionStatus.conditionUnknown,
        ReasonConfigurationProgressing,
        "Policy is progressing " ++ toString (numberOfFinishedEnactments counts)
          ++ "/" ++ toString readyNodes ++ " nodes finished"⟩ := by
  unfold updateConditions
  rw [if_pos h]
  exact ⟨setPolicyProgressing_find_degraded _ _, setPolicyProgressing_find_available _ _⟩

/-- Witness for C1 at readyNodes = 2, counts (1,1,0,0): one finished of two. -/
theorem update_progressing_conditions_witness :
    numberOfFinishedEnactments ⟨1, 1, 0, 0⟩ < 2 ∧
    ((updateConditions 2 ⟨1, 1, 0, 0⟩ []).find ConditionDegraded =
      some ⟨ConditionDegraded, ConditionStatus.conditionUnknown,
        ReasonConfigurationProgressing, ""⟩ ∧
    (updateConditions 2 ⟨1, 1, 0, 0⟩ []).find ConditionAvailable =
      some ⟨ConditionAvailable, ConditionStatus.conditionUnknown,
        ReasonConfigurationProgressing, "Policy is progressing 1/2 nodes finished"⟩) :=
  ⟨by decide, update_progressing_conditions 2 ⟨1, 1, 0, 0⟩ [] (by decide)⟩

/-- C2: when enough enactments are finished and no enactment matches, the
aggregator sets Degraded to False and Available to True, both with reason
ConfigurationNoMatchingNode and message "Policy does not match any node",
whatever the other counters are. -/
theorem update_notMatching_conditions (readyNodes : Nat) (counts : EnactmentCounts)
    (conditions : ConditionList)
    (hfin : readyNodes ≤ numberOfFinishedEnactments counts)
    (hmatch : counts.matching = 0) :
    (updateConditions readyNodes counts conditions).find ConditionDegraded =
      some ⟨ConditionDegraded, ConditionStatus.conditionFalse,
        ReasonConfigurationNoMatchingNode, "Policy does not match any node"⟩ ∧
    (updateConditions readyNodes counts conditions).find ConditionAvailable =
      some ⟨ConditionAvailable, ConditionStatus.conditionTrue,
        ReasonConfigurationNoMatchingNode, "Policy does not match any node"⟩ := by
  unfold updateConditions
  rw [if_neg (not_lt.mpr hfin), if_pos hmatch]
  exact ⟨setPolicyNotMatching_find_degraded _ _, setPolicyNotMatching_find_available _ _⟩

/-- Witness for C2 at readyNodes = 2, counts (0,1,1,2), prior Degraded entry. -/
theorem update_notMatching_conditions_witness :
    2 ≤ numberOfFinishedEnactments ⟨0, 1, 1, 2⟩ ∧
    ((updateConditions 2 ⟨0, 1, 1, 2⟩
        [⟨ConditionDegraded, ConditionStatus.conditionTrue, "Old", "old"⟩]).find
        ConditionDegraded =
      some ⟨ConditionDegraded, ConditionStatus.conditionFalse,
        ReasonConfigurationNoMatchingNode, "Policy does not match any node"⟩ ∧
    (updateConditions 2 ⟨0, 1, 1, 2⟩
        [⟨ConditionDegraded, ConditionStatus.conditionTrue, "Old", "old"⟩]).find
        ConditionAvailable =
      some ⟨ConditionAvailable, ConditionStatus.conditionTrue,
        ReasonConfigurationNoMatchingNode, "Policy does not match any node"⟩) :=
  ⟨by decide, update_notMatching_conditions 2 ⟨0, 1, 1, 2⟩
    [⟨ConditionDegraded, ConditionStatus.conditionTrue, "Old", "old"⟩]
    (by decide) (by decide)⟩

/-- C3: when enough enactments are finished, some enactment matches and some
enactment failed, the aggregator sets Degraded to True with reason
FailedToConfigure and message "<failed>/<matching> nodes failed to configure",
and Available to False with reason FailedToConfigure and empty message. -/
theorem update_failedToConfigure_conditions (readyNodes : Nat)
    (counts : EnactmentCounts) (conditions : ConditionList)
    (hfin : readyNodes ≤ numberOfFinishedEnactments counts)
    (hmatch : 0 < counts.matching) (hfail : 0 < counts.failed) :
    (updateConditions readyNodes counts conditions).find ConditionDegraded =
      some ⟨ConditionDegraded, ConditionStatus.conditionTrue,
        ReasonFailedToConfigure,
        toString counts.failed ++ "/" ++ toString counts.matching
          ++ " nodes failed to configure"⟩ ∧
    (updateConditions readyNodes counts conditions).find ConditionAvailable =
      some ⟨ConditionAvailable, ConditionStatus.conditionFalse,
        ReasonFailedToConfigure, ""⟩ := by
  unfold updateConditions
  rw [if_neg (not_lt.mpr hfin), if_neg (by omega), if_pos hfail]
  exact ⟨setPolicyFailedToConfigure_find_degraded _ _,
    setPolicyFailedToConfigure_find_available _ _⟩

/-- Witness for C3 at the spec scenario readyNodes = 3, counts (3,2,1,0): the
Degraded message is "1/3 nodes failed to configure". -/
theorem update_failedToConfigure_conditions_witness :
    3 ≤ numberOfFinishedEnactments ⟨3, 2, 1, 0⟩ ∧
    ((updateConditions 3 ⟨3, 2, 1, 0⟩ []).find ConditionDegraded =
      some ⟨ConditionDegraded, ConditionStatus.conditionTrue,
        ReasonFailedToConfigure, "1/3 nodes failed to configure"⟩ ∧
    (updateConditions 3 ⟨3, 2, 1, 0⟩ []).find ConditionAvailable =
      some ⟨ConditionAvailable, ConditionStatus.conditionFalse,
        ReasonFailedToConfigure, ""⟩) :=
  ⟨by decide, update_failedToConfigure_conditions 3 ⟨3, 2, 1, 0⟩ []
    (by decide) (by decide) (by decide)⟩

/-- C4: when enough enactments are finished, some enactment matches and none
failed, the aggregator sets Degraded to False with reason
SuccessfullyConfigured and empty message, and Available to True with reason
SuccessfullyConfigured and message
"<available>/<available> nodes successfully configured", the denominator
being the available count as well (the literal source behaviour). -/
theorem update_success_conditions (readyNodes : Nat) (counts : EnactmentCounts)
    (conditions : ConditionList)
    (hfin : readyNodes ≤ numberOfFinishedEnactments counts)
    (hmatch : 0 < counts.matching) (hfail : counts.failed = 0) :
    (updateConditions readyNodes counts conditions).find ConditionDegraded =
      some ⟨ConditionDegraded, ConditionStatus.conditionFalse,
        ReasonSuccessfullyConfigured, ""⟩ ∧
    (updateConditions readyNodes counts conditions).find ConditionAvailable =
      some ⟨ConditionAvailable, ConditionStatus.conditionTrue,
        ReasonSuccessfullyConfigured,
        toString counts.available ++ "/" ++ toString counts.available
          ++ " nodes successfully configured"⟩ := by
  unfold updateConditions
  rw [if_neg (not_lt.mpr hfin), if_neg (by omega), if_neg (by omega)]
  exact ⟨setPolicySuccess_find_degraded _ _, setPolicySuccess_find_available _ _⟩

/-- Witness for C4 at readyNodes = 2, counts (3,2,0,0): the Available message
repeats the available count on both sides of the slash. -/
theorem update_success_conditions_witness :
    2 ≤ numberOfFinishedEnactments ⟨3, 2, 0, 0⟩ ∧
    ((updateConditions 2 ⟨3, 2, 0, 0⟩ []).find ConditionDegraded =
      some ⟨ConditionDegraded, ConditionStatus.conditionFalse,
        ReasonSuccessfullyConfigured, ""⟩ ∧
    (updateConditions 2 ⟨3, 2, 0, 0⟩ []).find ConditionAvailable =
      some ⟨ConditionAvailable, ConditionStatus.conditionTrue,
        ReasonSuccessfullyConfigured, "2/2 nodes successfully configured"⟩) :=
  ⟨by decide, update_success_conditions 2 ⟨3, 2, 0, 0⟩ []
    (by decide) (by decide) (by decide)⟩

/-- Predicate selecting conditions whose type is neither Degraded nor
Available. -/
def otherPred (c : Condition) : Bool :=
  decide (c.type ≠ ConditionDegraded ∧ c.type ≠ ConditionAvailable)

/-- Upserting Degraded and then Available leaves the sublist of all other
condition types untouched. -/
theorem filter_otherPred_Set_pair (l : ConditionList) (s1 : ConditionStatus)
    (r1 m1 : String) (s2 : ConditionStatus) (r2 m2 : String) :
    ((l.Set ConditionDegraded s1 r1 m1).Set ConditionAvailable s2 r2 m2).filter
        otherPred = l.filter otherPred := by
  rw [ConditionList.filter_Set _ _ _ _ _ _
      (fun c h => by simp only [otherPred, h]; decide),
    ConditionList.filter_Set _ _ _ _ _ _
      (fun c h => by simp only [otherPred, h]; decide)]

/-- Sublist of other condition types after `setPolicyProgressing`. -/
theorem setPolicyProgressing_filter_other (l : ConditionList) (m : String) :
    (setPolicyProgressing l m).filter otherPred = l.filter otherPred :=
  filter_otherPred_Set_pair l _ _ _ _ _ _

/-- Sublist of other condition types after `setPolicySuccess`. -/
theorem setPolicySuccess_filter_other (l : ConditionList) (m : String) :
    (setPolicySuccess l m).filter otherPred = l.filter otherPred :=
  filter_otherPred_Set_pair l _ _ _ _ _ _

/-- Sublist of other condition types after `setPolicyNotMatching`. -/
theorem setPolicyNotMatching_filter_other (l : ConditionList) (m : String) :
    (setPolicyNotMatching l m).filter otherPred = l.filter otherPred :=
  filter_otherPred_Set_pair l _ _ _ _ _ _

/-- Sublist of other condition types after `setPolicyFailedToConfigure`. -/
theorem setPolicyFailedToConfigure_filter_other (l : ConditionList) (m : String) :
    (setPolicyFailedToConfigure l m).filter otherPred = l.filter otherPred :=
  filter_otherPred_Set_pair l _ _ _ _ _ _

/-- C10: in every branch of the decision procedure the Degraded and Available
conditions carry the same reason, their statuses are either both Unknown or
exactly one of them is True, and conditions of every other type are left
exactly as they were: only these two types are written. -/
theorem update_conditions_invariant (readyNodes : Nat) (counts : EnactmentCounts)
    (conditions : ConditionList) :
    ∃ d a : Condition,
      (updateConditions readyNodes counts conditions).find ConditionDegraded = some d ∧
      (updateConditions readyNodes counts conditions).find ConditionAvailable = some a ∧
      d.reason = a.reason ∧
      ((d.status = ConditionStatus.conditionUnknown ∧
          a.status = ConditionStatus.conditionUnknown) ∨
        (d.status = ConditionStatus.conditionTrue ∧
          a.status ≠ ConditionStatus.conditionTrue) ∨
        (a.status = ConditionStatus.conditionTrue ∧
          d.status ≠ ConditionStatus.conditionTrue)) ∧
      (updateConditions readyNodes counts conditions).filter otherPred =
        conditions.filter otherPred := by
  by_cases h1 : numberOfFinishedEnactments counts < readyNodes
  · have e : updateConditions readyNodes counts conditions =
        setPolicyProgressing conditions
          ("Policy is progressing " ++ toString (numberOfFinishedEnactments counts)
            ++ "/" ++ toString readyNodes ++ " nodes finished") := by
      unfold updateConditions
      rw [if_pos h1]
    rw [e]
    exact ⟨_, _, setPolicyProgressing_find_degraded _ _,
      setPolicyProgressing_find_available _ _, rfl, Or.inl ⟨rfl, rfl⟩,
      setPolicyProgressing_filter_other _ _⟩
  · by_cases h2 : counts.matching = 0
    · have e : updateConditions readyNodes counts conditions =
          setPolicyNotMatching conditions "Policy does not match any node" := by
        unfold updateConditions
        rw [if_neg h1, if_pos h2]
      rw [e]
      exact ⟨_, _, setPolicyNotMatching_find_degraded _ _,
        setPolicyNotMatching_find_available _ _, rfl,
        Or.inr (Or.inr ⟨rfl, by decide⟩), setPolicyNotMatching_filter_other _ _⟩
    · by_cases h3 : counts.failed > 0
      · have e : updateConditions readyNodes counts conditions =
            setPolicyFailedToConfigure conditions
              (toString counts.failed ++ "/" ++ toString counts.matching
                ++ " nodes failed to configure") := by
          unfold updateConditions
          rw [if_neg h1, if_neg h2, if_pos h3]
        rw [e]
        exact ⟨_, _, setPolicyFailedToConfigure_find_degraded _ _,
          setPolicyFailedToConfigure_find_available _ _, rfl,
          Or.inr (Or.inl ⟨rfl, by decide⟩),
          setPolicyFailedToConfigure_filter_other _ _⟩
      · have e : updateConditions readyNodes counts conditions =
            setPolicySuccess conditions
              (toString counts.available ++ "/" ++ toString counts.available
                ++ " nodes successfully configured") := by
          unfold updateConditions
          rw [if_neg h1, if_neg h2, if_neg h3]
        rw [e]
        exact ⟨_, _, setPolicySuccess_find_degraded _ _,
          setPolicySuccess_find_available _ _, rfl,
          Or.inr (Or.inr ⟨rfl, by decide⟩), setPolicySuccess_filter_other _ _⟩

/-- A node status condition: a (conditionType, conditionStatus) pair. -/
structure NodeCondition where
  type : String
  status : ConditionStatus
deriving DecidableEq, Repr

/-- Node condition type constant `corev1.NodeReady`. -/
def NodeReady : String := "Ready"

/-- A cluster node as consumed by this core: just its status conditions. -/
structure Node where
  conditions : List NodeCondition
deriving DecidableEq, Repr

/-- Source `Update`, lines 112-120: the nested loop computing
`numberOfReadyNodes` by incrementing once per condition entry equal to
(NodeReady, True), over all nodes and all of their conditions. -/
def numberOfReadyNodes (nodes : List Node) : Nat :=
  nodes.foldl (fun acc node =>
    node.conditions.foldl (fun acc2 condition =>
      if condition.type = NodeReady ∧ condition.status = ConditionStatus.conditionTrue
      then acc2 + 1 else acc2) acc) 0

/-- Boolean form of the (NodeReady, True) test from lines 115-116. -/
def isReadyTrue (c : NodeCondition) : Bool :=
  decide (c.type = NodeReady ∧ c.status = ConditionStatus.conditionTrue)

/-- Stated from the spec's words, for comparison with `numberOfReadyNodes`:
the count of nodes whose status conditions contain a (Ready, True) entry,
each such node counted once. -/
def specReadyNodeCount (nodes : List Node) : Nat :=
  (nodes.filter (fun node => node.conditions.any isReadyTrue)).length

/-- Inner loop of the ready-node count: adds the number of (Ready, True)
condition entries of one node to the accumulator. -/
theorem foldl_ready_inner (conds : List NodeCondition) (n : Nat) :
    conds.foldl (fun acc2 condition =>
      if condition.type = NodeReady ∧ condition.status = ConditionStatus.conditionTrue
      then acc2 + 1 else acc2) n = n + conds.countP isReadyTrue := by
  induction conds generalizing n with
  | nil => simp
  | cons c rest ih =>
    rw [List.foldl_cons, ih, List.countP_cons]
    by_cases h : c.type = NodeReady ∧ c.status = ConditionStatus.conditionTrue
    · have hb : isReadyTrue c = true := by simp [isReadyTrue, h]
      rw [if_pos h, hb]
      simp
      omega
    · have hb : isReadyTrue c = false := by simp [isReadyTrue, h]
      rw [if_neg h, hb]
      simp

/-- Outer loop of the ready-node count: sums the per-node (Ready, True)
entry counts. -/
theorem foldl_ready_outer (nodes : List Node) (n : Nat) :
    nodes.foldl (fun acc node =>
      node.conditions.foldl (fun acc2 condition =>
        if condition.type = NodeReady ∧ condition.status = ConditionStatus.conditionTrue
        then acc2 + 1 else acc2) acc) n =
      n + (nodes.map (fun node => node.conditions.countP isReadyTrue)).sum := by
  induction nodes generalizing n with
  | nil => simp
  | cons nd rest ih =>
    rw [List.foldl_cons, ih, foldl_ready_inner]
    simp
    omega

/-- Counterexample for C8: a single node carrying the (Ready, True) condition
entry twice is counted twice by the source loop, while it is one ready node. -/
theorem numberOfReadyNodes_counterexample :
    numberOfReadyNodes
        [⟨[⟨NodeReady, ConditionStatus.conditionTrue⟩,
          ⟨NodeReady, ConditionStatus.conditionTrue⟩]⟩] = 2 ∧
    specReadyNodeCount
        [⟨[⟨NodeReady, ConditionStatus.conditionTrue⟩,
          ⟨NodeReady, ConditionStatus.conditionTrue⟩]⟩] = 1 := by
  decide

/-- C8 (amended): when no node lists the (Ready, True) condition entry more
than once, the source loop computes exactly the number of nodes having a
Ready condition with status True, each counted once. -/
theorem numberOfReadyNodes_eq_spec (nodes : List Node)
    (h : ∀ node ∈ nodes, node.conditions.countP isReadyTrue ≤ 1) :
    numberOfReadyNodes nodes = specReadyNodeCount nodes := by
  unfold numberOfReadyNodes specReadyNodeCount
  rw [foldl_ready_outer]
  simp only [Nat.zero_add]
  induction nodes with
  | nil => simp
  | cons nd rest ih =>
    have hnd := h nd (List.mem_cons_self nd rest)
    have hrest : ∀ node ∈ rest, node.conditions.countP isReadyTrue ≤ 1 :=
      fun node hm => h node (List.mem_cons_of_mem nd hm)
    rw [List.map_cons, List.sum_cons, ih hrest]
    by_cases hany : nd.conditions.any isReadyTrue
    · have hpos : 0 < nd.conditions.countP isReadyTrue := by
        rw [List.countP_pos_iff]
        exact List.any_eq_true.mp hany
      have hone : nd.conditions.countP isReadyTrue = 1 := by omega
      simp [List.filter_cons, hany, hone]
      omega
    · have hzero : nd.conditions.countP isReadyTrue = 0 := by
        rw [List.countP_eq_zero]
        intro a ha hpa
        exact hany (List.any_eq_true.mpr ⟨a, ha, hpa⟩)
      simp only [Bool.not_eq_true] at hany
      simp [List.filter_cons, hany, hzero]

/-- A three-node cluster: one ready node, one unready node, one node with no
conditions. -/
def mixedNodes : List Node :=
  [⟨[⟨NodeReady, ConditionStatus.conditionTrue⟩,
    ⟨"DiskPressure", ConditionStatus.conditionFalse⟩]⟩,
    ⟨[⟨NodeReady, ConditionStatus.conditionFalse⟩]⟩,
    ⟨[]⟩]

/-- Witness for C8 (amended): on a cluster where no node repeats the
(Ready, True) entry, the source loop and the per-node ready count agree. -/
theorem numberOfReadyNodes_eq_spec_witness :
    (∀ node ∈ mixedNodes, node.conditions.countP isReadyTrue ≤ 1) ∧
    numberOfReadyNodes mixedNodes = specReadyNodeCount mixedNodes :=
  ⟨by decide, numberOfReadyNodes_eq_spec mixedNodes (by decide)⟩

/-- Errors observed by this core: a version-conflict rejection of a status
write, any other error (carrying its message), and the wrapping applied by
`errors.Wrap(err, ctx)` with a static context string. -/
inductive Err where
  | conflict
  | other (msg : String)
  | wrapped (ctx : String) (cause : Err)
deriving DecidableEq, Repr

/-- Modelled from the spec: the conflict classifier (`apierrors.IsConflict`,
not under src/), which per the spec must see through any error wrapping this
core applies and recognises exactly version-conflict errors. -/
def isConflict : Err → Bool
  | Err.conflict => true
  | Err.other _ => false
  | Err.wrapped _ cause => isConflict cause

/-- Modelled from the spec: the bounded attempt count of `retry.DefaultRetry`
(a small fixed number of attempts with increasing delay). -/
def defaultRetrySteps : Nat := 5

/-- Modelled from the spec: `retry.RetryOnConflict` (client-go, not under
src/). The work closure receives the attempt index, so that each retry
re-runs the whole read-compute-write cycle on fresh reads. It retries only
when the returned error is classified as a conflict, returns any other error
immediately, runs a bounded number of attempts, and returns the last
conflict error when every attempt conflicts. -/
def RetryOnConflict {α : Type} (work : Nat → Except Err α) : Nat → Nat → Except Err α
  | 0, _ => Except.error (Err.other "retry timeout")
  | steps + 1, i =>
    match work i with
    | Except.ok a => Except.ok a
    | Except.error e =>
      if isConflict e then
        if steps = 0 then Except.error e
        else RetryOnConflict work steps (i + 1)
      else Except.error e

/-- One attempt's view of the external store during `Update`: the outcomes of
the three reads (the policy's current condition list, the enactment counts as
produced by the counter collaborator on the listed enactments, and the node
list) and the store's answer to the status write (`none` means accepted).
Read failures are plain messages: reads do not version-check, so a read error
is never conflict-shaped. A distinct environment per attempt index models
that every retry re-reads everything. -/
structure AttemptEnv where
  getPolicy : Except String ConditionList
  listEnactments : Except String EnactmentCounts
  listNodes : Except String (List Node)
  statusWrite : ConditionList → Option Err

/-- Source `Update`'s work closure (lines 94-152): get the policy, list the
enactments, list the nodes, count ready nodes, run the decision procedure on
the freshly read condition list, then write the status. Each read failure is
wrapped with its static context string and returned before the write. On a
successful write the persisted condition list is returned. -/
def updateAttempt (env : AttemptEnv) : Except Err ConditionList :=
  match env.getPolicy with
  | Except.error m => Except.error (Err.wrapped "getting policy failed" (Err.other m))
  | Except.ok conditions =>
    match env.listEnactments with
    | Except.error m =>
      Except.error (Err.wrapped "getting enactments failed" (Err.other m))
    | Except.ok enactmentsCount =>
      match env.listNodes with
      | Except.error m =>
        Except.error (Err.wrapped "getting nodes failed" (Err.other m))
      | Except.ok nodes =>
        let newConditions :=
          updateConditions (numberOfReadyNodes nodes) enactmentsCount conditions
        match env.statusWrite newConditions with
        | some e => Except.error e
        | none => Except.ok newConditions

/-- Source `Update` (line 93): the work closure under
`retry.RetryOnConflict(retry.DefaultRetry, ...)`; the ok payload is the
condition list persisted by the successful attempt. -/
def Update (envs : Nat → AttemptEnv) : Except Err ConditionList :=
  RetryOnConflict (fun i => updateAttempt (envs i)) defaultRetrySteps 0

/-- One attempt's view of the external store during `Reset`. -/
structure ResetEnv where
  getPolicy : Except String ConditionList
  statusWrite : ConditionList → Option Err

/-- Source `Reset`'s work closure (lines 159-174): get the policy, replace
its condition list with the empty list, write the status. -/
def resetAttempt (env : ResetEnv) : Except Err ConditionList :=
  match env.getPolicy with
  | Except.error m => Except.error (Err.wrapped "getting policy failed" (Err.other m))
  | Except.ok _ =>
    match env.statusWrite ([] : ConditionList) with
    | some e => Except.error e
    | none => Except.ok ([] : ConditionList)

/-- Source `Reset` (line 158): the work closure under
`retry.RetryOnConflict(retry.DefaultRetry, ...)`. -/
def Reset (envs : Nat → ResetEnv) : Except Err ConditionList :=
  RetryOnConflict (fun i => resetAttempt (envs i)) defaultRetrySteps 0

/-- C6: the retry executor retries the work closure only on conflict-shaped
errors: a non-conflict error from an attempt is returned to the caller
immediately; the number of attempts is bounded by the fuel, and when every
attempt returns a conflict error the executor returns the conflict error of
the last attempt it ran. -/
theorem retryOnConflict_spec (work : Nat → Except Err ConditionList)
    (steps i : Nat) (e : Err) (g : Nat → Err) :
    (work i = Except.error e → isConflict e = false →
      RetryOnConflict work (steps + 1) i = Except.error e) ∧
    ((∀ j, work j = Except.error (g j) ∧ isConflict (g j) = true) →
      RetryOnConflict work (steps + 1) i = Except.error (g (i + steps))) := by
  constructor
  · intro hw hc
    simp [RetryOnConflict, hw, hc]
  · intro hg
    induction steps generalizing i with
    | zero =>
      have hi := hg i
      simp [RetryOnConflict, hi.1, hi.2]
    | succ s ih =>
      have hi := hg i
      have harg : i + 1 + s = i + (s + 1) := by omega
      simp [RetryOnConflict, hi.1, hi.2]
      rw [← harg]
      exact ih (i + 1)

/-- Witness for C6: a work closure failing with a non-conflict error is not
retried, and a work closure always failing with a conflict exhausts the five
attempts and ends with the conflict error. -/
theorem retryOnConflict_spec_witness :
    RetryOnConflict (fun _ => (Except.error (Err.other "boom") : Except Err ConditionList))
        5 0 = Except.error (Err.other "boom") ∧
    RetryOnConflict (fun _ => (Except.error Err.conflict : Except Err ConditionList))
        5 0 = Except.error Err.conflict :=
  ⟨(retryOnConflict_spec (fun _ => Except.error (Err.other "boom")) 4 0
      (Err.other "boom") (fun _ => Err.other "boom")).1 rfl rfl,
    (retryOnConflict_spec (fun _ => Except.error Err.conflict) 4 0
      Err.conflict (fun _ => Err.conflict)).2 (fun _ => ⟨rfl, rfl⟩)⟩

/-- When the first `j` attempts all fail with conflict errors and attempt `j`
succeeds, the executor returns attempt `j`'s value. -/
theorem retryOnConflict_skip (work : Nat → Except Err ConditionList)
    (a : ConditionList) :
    ∀ (j steps i : Nat), j < steps →
      (∀ k, k < j → ∃ e, work (i + k) = Except.error e ∧ isConflict e = true) →
      work (i + j) = Except.ok a →
      RetryOnConflict work steps i = Except.ok a := by
  intro j
  induction j with
  | zero =>
    intro steps i hlt hconf hok
    obtain ⟨s, rfl⟩ : ∃ s, steps = s + 1 := ⟨steps - 1, by omega⟩
    rw [Nat.add_zero] at hok
    simp [RetryOnConflict, hok]
  | succ k ih =>
    intro steps i hlt hconf hok
    obtain ⟨s, rfl⟩ : ∃ s, steps = s + 1 := ⟨steps - 1, by omega⟩
    obtain ⟨e, hwe, hce⟩ := hconf 0 (Nat.succ_pos k)
    rw [Nat.add_zero] at hwe
    have hs : ¬ s = 0 := by omega
    simp [RetryOnConflict, hwe, hce, hs]
    exact ih s (i + 1) (by omega)
      (fun k' hk' => by
        obtain ⟨e', h1, h2⟩ := hconf (k' + 1) (by omega)
        refine ⟨e', ?_, h2⟩
        rw [show i + 1 + k' = i + (k' + 1) by omega]
        exact h1)
      (by rw [show i + 1 + k = i + (k + 1) by omega]; exact hok)

/-- C5: when every attempt before attempt `j` fails with a conflict and
attempt `j`'s reads and status write succeed, `Update` returns exactly the
condition list computed from attempt `j`'s own fresh reads: a decision
computed before a conflict is never the one persisted. -/
theorem update_fresh_reads (envs : Nat → AttemptEnv) (j : Nat)
    (conditions : ConditionList) (counts : EnactmentCounts) (nodes : List Node)
    (hj : j < defaultRetrySteps)
    (hconf : ∀ k, k < j →
      ∃ e, updateAttempt (envs k) = Except.error e ∧ isConflict e = true)
    (h1 : (envs j).getPolicy = Except.ok conditions)
    (h2 : (envs j).listEnactments = Except.ok counts)
    (h3 : (envs j).listNodes = Except.ok nodes)
    (h4 : (envs j).statusWrite
      (updateConditions (numberOfReadyNodes nodes) counts conditions) = none) :
    Update envs =
      Except.ok (updateConditions (numberOfReadyNodes nodes) counts conditions) := by
  have hok : updateAttempt (envs j) =
      Except.ok (updateConditions (numberOfReadyNodes nodes) counts conditions) := by
    simp [updateAttempt, h1, h2, h3, h4]
  apply retryOnConflict_skip _ _ j defaultRetrySteps 0 hj
  · intro k hk
    simpa using hconf k hk
  · simpa using hok

/-- Two-attempt environment for the C5 witness: attempt 0 reads one finished
enactment of one and its write is rejected with a conflict; attempt 1 reads
two available enactments and its write is accepted. -/
def conflictThenFreshEnvs : Nat → AttemptEnv := fun i =>
  if i = 0 then
    { getPolicy := Except.ok []
      listEnactments := Except.ok ⟨1, 1, 0, 0⟩
      listNodes := Except.ok [⟨[⟨NodeReady, ConditionStatus.conditionTrue⟩]⟩]
      statusWrite := fun _ => some Err.conflict }
  else
    { getPolicy := Except.ok []
      listEnactments := Except.ok ⟨2, 2, 0, 0⟩
      listNodes := Except.ok [⟨[⟨NodeReady, ConditionStatus.conditionTrue⟩]⟩]
      statusWrite := fun _ => none }

/-- Witness for C5: with a conflict on attempt 0 and success on attempt 1,
the persisted conditions are the ones computed from attempt 1's reads. -/
theorem update_fresh_reads_witness :
    (1 : Nat) < defaultRetrySteps ∧
    Update conflictThenFreshEnvs =
      Except.ok (updateConditions
        (numberOfReadyNodes [⟨[⟨NodeReady, ConditionStatus.conditionTrue⟩]⟩])
        ⟨2, 2, 0, 0⟩ []) :=
  ⟨by decide,
    update_fresh_reads conflictThenFreshEnvs 1 [] ⟨2, 2, 0, 0⟩
      [⟨[⟨NodeReady, ConditionStatus.conditionTrue⟩]⟩] (by decide)
      (fun k hk => by
        have hk0 : k = 0 := by omega
        subst hk0
        exact ⟨Err.conflict, rfl, rfl⟩)
      rfl rfl rfl rfl⟩

/-- C7: a failing policy get, enactment list or node list makes the attempt
return the underlying error wrapped with its static context string; the
outcome does not depend on the status write at all (no write is attempted,
so the prior persisted status stays untouched); and the executor returns such
a read failure to the caller at once, without retrying. -/
theorem update_read_failure (env : AttemptEnv) (envs : Nat → AttemptEnv)
    (m : String) :
    (env.getPolicy = Except.error m →
      updateAttempt env =
        Except.error (Err.wrapped "getting policy failed" (Err.other m))) ∧
    (∀ conditions, env.getPolicy = Except.ok conditions →
      env.listEnactments = Except.error m →
      updateAttempt env =
        Except.error (Err.wrapped "getting enactments failed" (Err.other m))) ∧
    (∀ conditions counts, env.getPolicy = Except.ok conditions →
      env.listEnactments = Except.ok counts →
      env.listNodes = Except.error m →
      updateAttempt env =
        Except.error (Err.wrapped "getting nodes failed" (Err.other m))) ∧
    (env.getPolicy = Except.error m →
      ∀ w, updateAttempt { env with statusWrite := w } = updateAttempt env) ∧
    ((envs 0).getPolicy = Except.error m →
      Update envs =
        Except.error (Err.wrapped "getting policy failed" (Err.other m))) := by
  refine ⟨?_, ?_, ?_, ?_, ?_⟩
  · intro h
    simp [updateAttempt, h]
  · intro conditions h1 h2
    simp [updateAttempt, h1, h2]
  · intro conditions counts h1 h2 h3
    simp [updateAttempt, h1, h2, h3]
  · intro h w
    simp [updateAttempt, h]
  · intro h
    have hA : updateAttempt (envs 0) =
        Except.error (Err.wrapped "getting policy failed" (Err.other m)) := by
      simp [updateAttempt, h]
    unfold Update defaultRetrySteps
    simp [RetryOnConflict, hA, isConflict]

/-- Environment whose policy get fails. -/
def getFailEnv : AttemptEnv :=
  { getPolicy := Except.error "boom"
    listEnactments := Except.ok ⟨0, 0, 0, 0⟩
    listNodes := Except.ok []
    statusWrite := fun _ => none }

/-- Environment whose enactment list fails. -/
def enactmentsFailEnv : AttemptEnv :=
  { getPolicy := Except.ok []
    listEnactments := Except.error "boom"
    listNodes := Except.ok []
    statusWrite := fun _ => none }

/-- Environment whose node list fails. -/
def nodesFailEnv : AttemptEnv :=
  { getPolicy := Except.ok []
    listEnactments := Except.ok ⟨0, 0, 0, 0⟩
    listNodes := Except.error "boom"
    statusWrite := fun _ => none }

/-- Witness for C7: each failing read yields its wrapped error, the outcome
ignores the status write, and the executor returns the wrapped error at once. -/
theorem update_read_failure_witness :
    updateAttempt getFailEnv =
      Except.error (Err.wrapped "getting policy failed" (Err.other "boom")) ∧
    updateAttempt enactmentsFailEnv =
      Except.error (Err.wrapped "getting enactments failed" (Err.other "boom")) ∧
    updateAttempt nodesFailEnv =
      Except.error (Err.wrapped "getting nodes failed" (Err.other "boom")) ∧
    updateAttempt { getFailEnv with statusWrite := fun _ => some Err.conflict } =
      updateAttempt getFailEnv ∧
    Update (fun _ => getFailEnv) =
      Except.error (Err.wrapped "getting policy failed" (Err.other "boom")) :=
  ⟨(update_read_failure getFailEnv (fun _ => getFailEnv) "boom").1 rfl,
    (update_read_failure enactmentsFailEnv (fun _ => getFailEnv) "boom").2.1 [] rfl rfl,
    (update_read_failure nodesFailEnv (fun _ => getFailEnv) "boom").2.2.1
      [] ⟨0, 0, 0, 0⟩ rfl rfl rfl,
    (update_read_failure getFailEnv (fun _ => getFailEnv) "boom").2.2.2.1 rfl
      (fun _ => some Err.conflict),
    (update_read_failure getFailEnv (fun _ => getFailEnv) "boom").2.2.2.2 rfl⟩

/-- Every successful run of the executor returns the value of some attempt. -/
theorem retryOnConflict_ok (work : Nat → Except Err ConditionList) :
    ∀ (steps i : Nat) (a : ConditionList),
      RetryOnConflict work steps i = Except.ok a → ∃ j, work j = Except.ok a := by
  intro steps
  induction steps with
  | zero =>
    intro i a h
    simp [RetryOnConflict] at h
  | succ s ih =>
    intro i a h
    simp only [RetryOnConflict] at h
    split at h
    · next b heq =>
      cases h
      exact ⟨i, heq⟩
    · next e heq =>
      by_cases hc : isConflict e
      · rw [if_pos hc] at h
        by_cases hs : s = 0
        · rw [if_pos hs] at h
          cases h
        · rw [if_neg hs] at h
          exact ih (i + 1) a h
      · rw [if_neg hc] at h
        cases h

/-- C9: whatever the prior content of the policy's condition list, a
successful `Reset` persists the empty condition list; and with readable
policy and accepting store the reset does succeed, for any prior content. -/
theorem reset_persists_empty (envs : Nat → ResetEnv) (c prior : ConditionList) :
    (Reset envs = Except.ok c → c = []) ∧
    ((envs 0).getPolicy = Except.ok prior →
      (envs 0).statusWrite ([] : ConditionList) = none →
      Reset envs = Except.ok ([] : ConditionList)) := by
  constructor
  · intro h
    obtain ⟨j, hj⟩ := retryOnConflict_ok _ _ _ _ h
    unfold resetAttempt at hj
    split at hj
    · cases hj
    · split at hj
      · cases hj
      · cases hj
        rfl
  · intro h1 h2
    have hA : resetAttempt (envs 0) = Except.ok ([] : ConditionList) := by
      simp [resetAttempt, h1, h2]
    unfold Reset defaultRetrySteps
    simp [RetryOnConflict, hA]

/-- Reset environment with a non-empty prior condition list and an accepting
store. -/
def resetEnvNonEmptyPrior : Nat → ResetEnv := fun _ =>
  { getPolicy := Except.ok
      [⟨ConditionAvailable, ConditionStatus.conditionTrue, "SuccessfullyConfigured", "2/2"⟩,
        ⟨ConditionDegraded, ConditionStatus.conditionFalse, "SuccessfullyConfigured", ""⟩]
    statusWrite := fun _ => none }

/-- Witness for C9: resetting a policy whose status held two conditions
persists the empty list. -/
theorem reset_persists_empty_witness :
    Reset resetEnvNonEmptyPrior = Except.ok ([] : ConditionList) ∧
    ([] : ConditionList) = [] :=
  ⟨(reset_persists_empty resetEnvNonEmptyPrior []
      [⟨ConditionAvailable, ConditionStatus.conditionTrue, "SuccessfullyConfigured", "2/2"⟩,
        ⟨ConditionDegraded, ConditionStatus.conditionFalse, "SuccessfullyConfigured", ""⟩]).2
      rfl rfl,
    (reset_persists_empty resetEnvNonEmptyPrior []
      [⟨ConditionAvailable, ConditionStatus.conditionTrue, "SuccessfullyConfigured", "2/2"⟩,
        ⟨ConditionDegraded, ConditionStatus.conditionFalse, "SuccessfullyConfigured", ""⟩]).1
      ((reset_persists_empty resetEnvNonEmptyPrior []
        [⟨ConditionAvailable, ConditionStatus.conditionTrue, "SuccessfullyConfigured", "2/2"⟩,
          ⟨ConditionDegraded, ConditionStatus.conditionFalse, "SuccessfullyConfigured", ""⟩]).2
        rfl rfl)⟩

end policyconditions
